import Mathlib

/-!
Shallow embedding of the insight-seis-catalog ingestion core
(`src/insightcatalog/core/quakeml_io.py` and
`src/insightcatalog/core/datamodel/catalog/*.py`).

Documents decoded by xmltodict are modelled as `Py` trees (dicts, lists,
strings).  Python runtime values appearing in the pipeline (None, str,
float, obspy UTCDateTime, numpy arrays) are constructors of `Py`.
Fallible Python operations (subscripting, `float()`, iteration) return
`Except PyErr`.  Entities (Origin, Pick, Arrival, Magnitude, MarsEvent,
SingleStationPick, SingleStationParameters, Catalog) are Lean structures
whose setters and getters are translated method by method from the
source; `read_catalog` is translated statement by statement, taking the
already-decoded document tree as input (the xmltodict call itself is the
external structural decoder).
-/

namespace InsightCatalog

/-- Exact value of a Python float arising in the pipeline.  The
ingestion code only parses decimal strings into floats, copies them and
compares them (it performs no float arithmetic), so a float is
represented canonically by a sign, an integer part and the fraction
digits with trailing zeros removed; two parsed decimals are equal as
Python floats exactly when their canonical forms coincide. -/
structure Dec where
  neg : Bool := false
  ip : ℕ := 0
  fp : List ℕ := []
  deriving DecidableEq

def Dec.isZero (d : Dec) : Bool := d.ip == 0 && d.fp == []

/-- The float value of a natural-number literal (such as the source's
`50 * 1000.0` depth default). -/
def decNat (n : ℕ) : Dec := { neg := false, ip := n, fp := [] }

mutual
/-- Python runtime values reachable in the ingestion pipeline.
`utc s` is the obspy `UTCDateTime` built from string `s`; `num d` is a
Python float with decimal value `d`; `nparr` / `nparr0` are 1-d / 0-d
numpy arrays as produced by `np.asarray`. -/
inductive Py where
  | none : Py
  | str (s : String) : Py
  | num (d : Dec) : Py
  | utc (s : String) : Py
  | list (items : PyList) : Py
  | dict (fields : PyDict) : Py
  | nparr (items : PyList) : Py
  | nparr0 (v : Py) : Py
  deriving DecidableEq
inductive PyList where
  | nil : PyList
  | cons (hd : Py) (tl : PyList) : PyList
  deriving DecidableEq
inductive PyDict where
  | nil : PyDict
  | cons (key : String) (val : Py) (tl : PyDict) : PyDict
  deriving DecidableEq
end

instance : BEq Py := ⟨fun a b => decide (a = b)⟩

def PyList.toList : PyList → List Py
  | .nil => []
  | .cons h t => h :: t.toList

def PyList.isNil : PyList → Bool
  | .nil => true
  | .cons _ _ => false

/-- Build a `PyList` from a Lean list (used to write document literals). -/
def pyL : List Py → PyList
  | [] => .nil
  | h :: t => .cons h (pyL t)

/-- Build a `PyDict` from a Lean association list. -/
def pyD : List (String × Py) → PyDict
  | [] => .nil
  | (k, v) :: t => .cons k v (pyD t)

def PyDict.lookup : PyDict → String → Option Py
  | .nil, _ => Option.none
  | .cons k v t, key => if k = key then some v else t.lookup key

def PyDict.hasKey (d : PyDict) (key : String) : Bool :=
  (d.lookup key).isSome

def PyDict.keys : PyDict → List String
  | .nil => []
  | .cons k _ t => k :: t.keys

def PyDict.isNil : PyDict → Bool
  | .nil => true
  | .cons _ _ _ => false

/-- Python exceptions surfaced by the ingestion pipeline. -/
inductive PyErr where
  | keyError (key : String)
  | typeError
  | valueError (msg : String)
  | attributeError
  deriving DecidableEq

abbrev PyM (α : Type) := Except PyErr α

instance {α : Type} [DecidableEq α] : DecidableEq (PyM α) := fun a b =>
  match a, b with
  | .ok x, .ok y =>
      if h : x = y then isTrue (by rw [h]) else isFalse (by intro hc; cases hc; exact h rfl)
  | .error x, .error y =>
      if h : x = y then isTrue (by rw [h]) else isFalse (by intro hc; cases hc; exact h rfl)
  | .ok _, .error _ => isFalse (by intro hc; cases hc)
  | .error _, .ok _ => isFalse (by intro hc; cases hc)

/-- Python truthiness (`bool(v)`) for the values the pipeline tests. -/
def Py.truthy : Py → Bool
  | .none => false
  | .str s => s ≠ ""
  | .num d => ¬ d.isZero
  | .utc _ => true
  | .list l => ¬ l.isNil
  | .dict d => ¬ d.isNil
  | .nparr l => ¬ l.isNil
  | .nparr0 _ => true

/-- Python `isinstance(v, float)`. -/
def Py.isFloat : Py → Bool
  | .num _ => true
  | _ => false

/-- Python `isinstance(v, list)` (numpy arrays are not Python lists). -/
def Py.isList : Py → Bool
  | .list _ => true
  | _ => false

/-- Python `isinstance(v, dict)`. -/
def Py.isDict : Py → Bool
  | .dict _ => true
  | _ => false

/-- Python `isinstance(v, str)`. -/
def Py.isStr : Py → Bool
  | .str _ => true
  | _ => false

/-- Python subscripting `v[k]` with a string key: dict lookup raising
`KeyError` on a missing key, `TypeError` on every non-dict value. -/
def Py.getItem (v : Py) (k : String) : PyM Py :=
  match v with
  | .dict d =>
      match d.lookup k with
      | some x => .ok x
      | Option.none => .error (.keyError k)
  | _ => .error .typeError

/-- Python `v.get(k, dflt)`: only dicts have `.get`; everything else
raises an `AttributeError`. -/
def Py.dictGet (v : Py) (k : String) (dflt : Py) : PyM Py :=
  match v with
  | .dict d => .ok ((d.lookup k).getD dflt)
  | _ => .error .attributeError

def prefixMatches : List Char → List Char → Bool
  | [], _ => true
  | _ :: _, [] => false
  | a :: as, b :: bs => a == b && prefixMatches as bs

def containsSeq (needle : List Char) : List Char → Bool
  | [] => prefixMatches needle []
  | c :: rest => prefixMatches needle (c :: rest) || containsSeq needle rest

/-- Substring test: `needle in hay` for Python strings. -/
def strContains (hay needle : String) : Bool :=
  containsSeq needle.toList hay.toList

/-- Python membership `k in v` for a string `k`: key membership for
dicts, substring for strings, element membership for lists, `TypeError`
otherwise. -/
def Py.containsOp (v : Py) (k : String) : PyM Bool :=
  match v with
  | .dict d => .ok (d.hasKey k)
  | .str s => .ok (strContains s k)
  | .list l => .ok (l.toList.contains (Py.str k))
  | _ => .error .typeError

/-- Python iteration `for x in v`: list elements, dict keys, string
characters; everything else raises `TypeError`. -/
def Py.iter (v : Py) : PyM (List Py) :=
  match v with
  | .list l => .ok l.toList
  | .dict d => .ok (d.keys.map Py.str)
  | .str s => .ok (s.toList.map (fun c => Py.str c.toString))
  | .nparr l => .ok l.toList
  | _ => .error .typeError

def digitsToNat (ds : List ℕ) : ℕ := ds.foldl (fun a d => a * 10 + d) 0

def takeDigits : List Char → (List ℕ × List Char)
  | [] => ([], [])
  | c :: cs =>
      if c.isDigit then
        let (ds, rest) := takeDigits cs
        ((c.toNat - 48) :: ds, rest)
      else ([], c :: cs)

def stripSpaces (cs : List Char) : List Char :=
  ((cs.dropWhile (fun c => c = ' ')).reverse.dropWhile (fun c => c = ' ')).reverse

def stripTrailingZeroDigits (ds : List ℕ) : List ℕ :=
  (ds.reverse.dropWhile (fun d => d = 0)).reverse

/-- Canonical decimal from a parsed sign, integer digits and fraction
digits. -/
def mkDec (neg : Bool) (ip : List ℕ) (fp : List ℕ) : Dec :=
  let ipN := digitsToNat ip
  let fpC := stripTrailingZeroDigits fp
  { neg := if ipN = 0 ∧ fpC = [] then false else neg, ip := ipN, fp := fpC }

/-- Decimal core of Python `float(string)`: optional sign, digits with an
optional fractional part. -/
def parseFloatCore (cs0 : List Char) : Option Dec :=
  let signed : Bool × List Char :=
    match cs0 with
    | '-' :: rest => (true, rest)
    | '+' :: rest => (false, rest)
    | _ => (false, cs0)
  let (ip, cs1) := takeDigits signed.2
  match cs1 with
  | [] => if ip = [] then Option.none else some (mkDec signed.1 ip [])
  | '.' :: cs2 =>
      let (fp, cs3) := takeDigits cs2
      if cs3 = [] then
        if ip = [] ∧ fp = [] then Option.none
        else some (mkDec signed.1 ip fp)
      else Option.none
  | _ => Option.none

def parseFloat (s : String) : Option Dec :=
  parseFloatCore (stripSpaces s.toList)

/-- Python `float(v)`: identity on floats, decimal parse on strings
(`ValueError` on failure), `TypeError` on the rest. -/
def pyFloat (v : Py) : PyM Py :=
  match v with
  | .num d => .ok (.num d)
  | .str s =>
      match parseFloat s with
      | some d => .ok (.num d)
      | Option.none => .error (.valueError "could not convert string to float")
  | _ => .error .typeError

/-- The recurring source idiom
`if value and not isinstance(value, float): value = float(value)`. -/
def pyFloatCoerce (v : Py) : PyM Py :=
  if v.truthy && !v.isFloat then pyFloat v else .ok v

/-- obspy `UTCDateTime(v)` restricted to the shapes the pipeline feeds
it: a string parses (kept symbolically), a `UTCDateTime` passes through. -/
def UTCDateTime (v : Py) : PyM Py :=
  match v with
  | .str s => .ok (.utc s)
  | .utc s => .ok (.utc s)
  | _ => .error .typeError

/-- numpy `np.asarray`: arrays pass through, lists become 1-d arrays,
scalars become 0-d arrays. -/
def npAsarray (v : Py) : Py :=
  match v with
  | .nparr l => .nparr l
  | .nparr0 x => .nparr0 x
  | .list l => .nparr l
  | x => .nparr0 x

/-- Python `s.split(' ')`: split on every single space, keeping empty
pieces. -/
def splitChar (sep : Char) : List Char → List (List Char)
  | [] => [[]]
  | c :: cs =>
      if c = sep then [] :: splitChar sep cs
      else
        match splitChar sep cs with
        | [] => [[c]]
        | h :: t => (c :: h) :: t

/-- numpy `np.asarray(s.split(' ')).astype(float)` for a string `s`:
split on single spaces and parse every piece as a float. -/
def npParseFloatArray (s : String) : PyM Py := do
  let pieces := splitChar ' ' s.toList
  let qs ← pieces.mapM (fun p => pyFloat (.str (String.mk p)))
  pure (.nparr (pyL qs))

/-- Modelled from the spec: `to_float` is imported by
`datamodel/catalog/pickarrival.py` from `commontools.py` but is absent
from that module in the repository.  Per the spec the single-station
pick builder tolerates completely absent fields (all-null) and parses
numeric fields, so `to_float` maps null to null and otherwise behaves
as Python `float`. -/
def to_float (v : Py) : PyM Py :=
  match v with
  | .none => .ok .none
  | x => pyFloat x

/-- Entity of `pickarrival.py`, class `SingleStationPick`. -/
structure SingleStationPick where
  public_id : Py := Py.none
  pick_id : Py := Py.none
  frequency : Py := Py.none
  freq_lower_uncertainty : Py := Py.none
  freq_upper_uncertainty : Py := Py.none
  deriving DecidableEq

def SingleStationPick.set_public_id (p : SingleStationPick) (v : Py) : SingleStationPick :=
  { p with public_id := v }

def SingleStationPick.set_frequency (p : SingleStationPick) (v : Py) : PyM SingleStationPick := do
  pure { p with frequency := (← to_float v) }

def SingleStationPick.set_freq_lower_uncertainty (p : SingleStationPick) (v : Py) :
    PyM SingleStationPick := do
  pure { p with freq_lower_uncertainty := (← to_float v) }

def SingleStationPick.set_freq_upper_uncertainty (p : SingleStationPick) (v : Py) :
    PyM SingleStationPick := do
  pure { p with freq_upper_uncertainty := (← to_float v) }

/-- Entity of `pickarrival.py`, class `Pick`.  Its uncertainty setters
store the raw value (no float conversion, unlike `Arrival`). -/
structure Pick where
  public_id : Py := Py.none
  time : Py := Py.none
  phase_hint : Py := Py.none
  lower_uncertainty : Py := Py.none
  upper_uncertainty : Py := Py.none
  single_station_pick : Option SingleStationPick := Option.none
  deriving DecidableEq

def Pick.set_public_id (p : Pick) (v : Py) : Pick := { p with public_id := v }
def Pick.set_time (p : Pick) (v : Py) : Pick := { p with time := v }
def Pick.set_phase_hint (p : Pick) (v : Py) : Pick := { p with phase_hint := v }
def Pick.set_lower_uncertainty (p : Pick) (v : Py) : Pick := { p with lower_uncertainty := v }
def Pick.set_upper_uncertainty (p : Pick) (v : Py) : Pick := { p with upper_uncertainty := v }
def Pick.set_single_station_pick (p : Pick) (s : SingleStationPick) : Pick :=
  { p with single_station_pick := some s }
def Pick.get_public_id (p : Pick) : Py := p.public_id
def Pick.get_time (p : Pick) : Py := p.time
def Pick.get_lower_uncertainty (p : Pick) : Py := p.lower_uncertainty
def Pick.get_upper_uncertainty (p : Pick) : Py := p.upper_uncertainty
def Pick.get_single_station_pick (p : Pick) : Option SingleStationPick := p.single_station_pick

/-- Entity of `pickarrival.py`, class `Arrival`.  Its uncertainty
setters coerce truthy non-float values through Python `float`. -/
structure Arrival where
  public_id : Py := Py.none
  pick_id : Py := Py.none
  time : Py := Py.none
  phase_label : Py := Py.none
  lower_uncertainty : Py := Py.none
  upper_uncertainty : Py := Py.none
  single_station_pick : Option SingleStationPick := Option.none
  deriving DecidableEq

def Arrival.set_public_id (a : Arrival) (v : Py) : Arrival := { a with public_id := v }
def Arrival.set_pick_id (a : Arrival) (v : Py) : Arrival := { a with pick_id := v }
def Arrival.set_time (a : Arrival) (v : Py) : Arrival := { a with time := v }
def Arrival.set_phase_label (a : Arrival) (v : Py) : Arrival := { a with phase_label := v }

def Arrival.set_lower_uncertainty (a : Arrival) (v : Py) : PyM Arrival := do
  pure { a with lower_uncertainty := (← pyFloatCoerce v) }

def Arrival.set_upper_uncertainty (a : Arrival) (v : Py) : PyM Arrival := do
  pure { a with upper_uncertainty := (← pyFloatCoerce v) }

def Arrival.set_single_station_pick (a : Arrival) (s : SingleStationPick) : Arrival :=
  { a with single_station_pick := some s }

def Arrival.get_pick_id (a : Arrival) : Py := a.pick_id
def Arrival.get_time (a : Arrival) : Py := a.time

/-- Entity of `magnitude.py`, class `Magnitude`. -/
structure Magnitude where
  public_id : Py := Py.none
  origin_id : Py := Py.none
  magnitude_type : Py := Py.none
  magnitude_value : Py := Py.none
  lower_uncertainty : Py := Py.none
  upper_uncertainty : Py := Py.none
  is_calculated : Bool := false
  deriving DecidableEq

def Magnitude.set_public_id (m : Magnitude) (v : Py) : Magnitude := { m with public_id := v }
def Magnitude.set_type (m : Magnitude) (v : Py) : Magnitude := { m with magnitude_type := v }
def Magnitude.set_origin_id (m : Magnitude) (v : Py) : Magnitude := { m with origin_id := v }
def Magnitude.get_origin_id (m : Magnitude) : Py := m.origin_id
def Magnitude.get_public_id (m : Magnitude) : Py := m.public_id

def Magnitude.set_value (m : Magnitude) (v : Py) : PyM Magnitude := do
  pure { m with magnitude_value := (← pyFloatCoerce v) }

def Magnitude.set_lower_uncertainty (m : Magnitude) (v : Py) : PyM Magnitude := do
  pure { m with lower_uncertainty := (← pyFloatCoerce v) }

def Magnitude.set_upper_uncertainty (m : Magnitude) (v : Py) : PyM Magnitude := do
  pure { m with upper_uncertainty := (← pyFloatCoerce v) }

/-- Entity of `singlestation.py`, class `SingleStationParameters`. -/
structure SingleStationParameters where
  public_id : Py := Py.none
  sst_distance : Py := Py.none
  sst_baz : Py := Py.none
  sst_distance_variable : Py := Py.none
  sst_baz_variable : Py := Py.none
  sst_distance_pdf : Py := Py.none
  sst_baz_pdf : Py := Py.none
  deriving DecidableEq

def SingleStationParameters.set_public_id (p : SingleStationParameters) (v : Py) :
    SingleStationParameters :=
  { p with public_id := v }

def SingleStationParameters.set_sst_distance (p : SingleStationParameters) (v : Py) :
    PyM SingleStationParameters :=
  match v with
  | .none => .ok p
  | x => do pure { p with sst_distance := (← pyFloat x) }

def SingleStationParameters.set_sst_baz (p : SingleStationParameters) (v : Py) :
    PyM SingleStationParameters :=
  match v with
  | .none => .ok p
  | x => do pure { p with sst_baz := (← pyFloat x) }

def SingleStationParameters.set_sst_distance_variable (p : SingleStationParameters) (v : Py) :
    PyM SingleStationParameters := do
  let w ← match v with
    | .str s => npParseFloatArray s
    | x => pure x
  pure { p with sst_distance_variable := npAsarray w }

def SingleStationParameters.set_sst_baz_variable (p : SingleStationParameters) (v : Py) :
    PyM SingleStationParameters := do
  let w ← match v with
    | .str s => npParseFloatArray s
    | x => pure x
  pure { p with sst_baz_variable := npAsarray w }

def SingleStationParameters.set_sst_distance_pdf (p : SingleStationParameters) (v : Py) :
    PyM SingleStationParameters := do
  let w ← match v with
    | .str s => npParseFloatArray s
    | x => pure x
  pure { p with sst_distance_pdf := npAsarray w }

def SingleStationParameters.set_sst_baz_pdf (p : SingleStationParameters) (v : Py) :
    PyM SingleStationParameters := do
  let w ← match v with
    | .str s => npParseFloatArray s
    | x => pure x
  pure { p with sst_baz_pdf := npAsarray w }

def SingleStationParameters.get_sst_distance (p : SingleStationParameters) :
    PyM (SingleStationParameters × Py) := do
  let d ← pyFloatCoerce p.sst_distance
  pure ({ p with sst_distance := d }, d)

def SingleStationParameters.get_sst_baz (p : SingleStationParameters) :
    PyM (SingleStationParameters × Py) := do
  let b ← pyFloatCoerce p.sst_baz
  pure ({ p with sst_baz := b }, b)

/-- Entity of `origin.py`, class `Origin`.  The cyclic `parent_event`
back-reference is omitted (no linking step or accessor used here reads
it). -/
structure Origin where
  public_id : Py := Py.none
  origin_time : Py := Py.none
  latitude : Py := Py.none
  longitude : Py := Py.none
  depth : Py := Py.none
  distance : Py := Py.none
  baz : Py := Py.none
  quality : Py := Py.none
  snr : Py := Py.none
  sst_parameters : Option SingleStationParameters := Option.none
  magnitudes : List Magnitude := []
  arrivals : List Arrival := []
  source : Py := Py.none
  deriving DecidableEq

def Origin.set_public_id (o : Origin) (v : Py) : Origin := { o with public_id := v }
def Origin.set_origin_time (o : Origin) (v : Py) : Origin := { o with origin_time := v }
def Origin.set_latitude (o : Origin) (v : Py) : Origin := { o with latitude := v }
def Origin.set_longitude (o : Origin) (v : Py) : Origin := { o with longitude := v }
def Origin.set_depth (o : Origin) (v : Py) : Origin := { o with depth := v }
def Origin.set_baz (o : Origin) (v : Py) : Origin := { o with baz := v }
def Origin.set_quality (o : Origin) (v : Py) : Origin := { o with quality := v }
def Origin.set_snr (o : Origin) (v : Py) : Origin := { o with snr := v }
def Origin.set_sst_parameters (o : Origin) (p : SingleStationParameters) : Origin :=
  { o with sst_parameters := some p }
def Origin.get_sst_parameters (o : Origin) : Option SingleStationParameters := o.sst_parameters
def Origin.set_arrivals (o : Origin) (l : List Arrival) : Origin := { o with arrivals := l }
def Origin.get_arrivals (o : Origin) : List Arrival := o.arrivals
def Origin.append_magnitude (o : Origin) (m : Magnitude) : Origin :=
  { o with magnitudes := o.magnitudes ++ [m] }
def Origin.get_magnitudes (o : Origin) : List Magnitude := o.magnitudes
def Origin.get_public_id (o : Origin) : Py := o.public_id

/-- `Origin.set_distance`: stores the value and mirrors it into the SST
parameters, creating a fresh `SingleStationParameters` when none is
attached yet (`origin.py` lines 128-137). -/
def Origin.set_distance (o : Origin) (v : Py) : PyM Origin := do
  let o := { o with distance := v }
  match o.sst_parameters with
  | some sst => do
      let sst ← sst.set_sst_distance v
      pure { o with sst_parameters := some sst }
  | Option.none => do
      let nsst ← SingleStationParameters.set_sst_distance {} v
      pure (o.set_sst_parameters nsst)

/-- `Origin.get_distance`: float-normalizes the stored distance, then
returns `self.sst_parameters.get_sst_distance() or self.distance`,
dereferencing `sst_parameters` unconditionally (`origin.py` lines
169-173). -/
def Origin.get_distance (o : Origin) : PyM (Origin × Py) := do
  let d ← pyFloatCoerce o.distance
  let o := { o with distance := d }
  match o.sst_parameters with
  | Option.none => .error .attributeError
  | some sst => do
      let r ← sst.get_sst_distance
      let o := { o with sst_parameters := some r.1 }
      pure (o, if r.2.truthy then r.2 else o.distance)

/-- `Origin.get_baz`: float-normalizes and returns the origin's own
back-azimuth field only; the SST parameters are not consulted
(`origin.py` lines 188-191). -/
def Origin.get_baz (o : Origin) : PyM (Origin × Py) := do
  let b ← pyFloatCoerce o.baz
  pure ({ o with baz := b }, b)

/-- Entity of `event.py`, class `MarsEvent` (fields the ingestion core
touches; waveform, spectra and amplitude state are unrelated to the
claims). -/
structure MarsEvent where
  public_id : Py := Py.none
  mars_event_type : Py := Py.none
  event_name : Py := Py.none
  event_type : Py := Py.none
  mars_event_type_interpretation : Py := Py.none
  origins : List Origin := []
  magnitudes : List Magnitude := []
  picks : List Pick := []
  preferred_origin_id : Py := Py.none
  preferred_magnitude_id : Py := Py.none
  preferred_origin : Option Origin := Option.none
  preferred_magnitude : Option Magnitude := Option.none
  deriving DecidableEq

def MarsEvent.set_public_id (e : MarsEvent) (v : Py) : MarsEvent := { e with public_id := v }
def MarsEvent.set_event_name (e : MarsEvent) (v : Py) : MarsEvent := { e with event_name := v }
def MarsEvent.set_mars_event_type (e : MarsEvent) (v : Py) : MarsEvent :=
  { e with mars_event_type := v }
def MarsEvent.set_earth_event_type (e : MarsEvent) (v : Py) : MarsEvent :=
  { e with event_type := v }
def MarsEvent.set_preferred_origin_public_id (e : MarsEvent) (v : Py) : MarsEvent :=
  { e with preferred_origin_id := v }
def MarsEvent.set_preferred_magnitude_public_id (e : MarsEvent) (v : Py) : MarsEvent :=
  { e with preferred_magnitude_id := v }
def MarsEvent.set_picks (e : MarsEvent) (l : List Pick) : MarsEvent := { e with picks := l }
def MarsEvent.get_picks (e : MarsEvent) : List Pick := e.picks
def MarsEvent.set_magnitudes (e : MarsEvent) (l : List Magnitude) : MarsEvent :=
  { e with magnitudes := l }
def MarsEvent.set_origins (e : MarsEvent) (l : List Origin) : MarsEvent := { e with origins := l }

/-- `MarsEvent.get_pick_for_arrival`: first pick of the event whose
public id equals the arrival's pick reference, else null (`event.py`
lines 515-521). -/
def MarsEvent.get_pick_for_arrival (e : MarsEvent) (a : Arrival) : Option Pick :=
  e.picks.find? (fun p => p.public_id == a.pick_id)

/-- `MarsEvent.get_preferred_origin`: resolves and caches the preferred
origin on first access by scanning the owned origins (`event.py` lines
418-427).  Returns the updated event together with the result. -/
def MarsEvent.get_preferred_origin (e : MarsEvent) : MarsEvent × Option Origin :=
  match e.preferred_origin with
  | some o => (e, some o)
  | Option.none =>
      match e.origins.find? (fun o => o.public_id == e.preferred_origin_id) with
      | some o => ({ e with preferred_origin := some o }, some o)
      | Option.none => (e, Option.none)

/-- `MarsEvent.get_preferred_magnitude` (`event.py` lines 402-411). -/
def MarsEvent.get_preferred_magnitude (e : MarsEvent) : MarsEvent × Option Magnitude :=
  match e.preferred_magnitude with
  | some m => (e, some m)
  | Option.none =>
      match e.magnitudes.find? (fun m => m.public_id == e.preferred_magnitude_id) with
      | some m => ({ e with preferred_magnitude := some m }, some m)
      | Option.none => (e, Option.none)

/-- Container of `catalog.py`, class `Catalog` (events plus source
file; analysis caches are unrelated to ingestion). -/
structure Catalog where
  events : List MarsEvent := []
  catalog_file : Py := Py.none
  deriving DecidableEq

/-! Translation of `src/insightcatalog/core/quakeml_io.py`. -/

/-- Lookup table `_QUALITY_KEYS` (lines 12-17), in source order. -/
def _QUALITY_KEYS : List (String × String) :=
  [("MarsLocationQualityType#D", "D"),
   ("MarsLocationQualityType#C", "C"),
   ("MarsLocationQualityType#B", "B"),
   ("MarsLocationQualityType#A", "A")]

/-- Lookup table `_EVENT_TYPE_KEYS` (lines 20-36), in source order. -/
def _EVENT_TYPE_KEYS : List (String × String) :=
  [("MarsEventType#BROADBAND", "BB"),
   ("MarsEventType#WIDEBAND", "WB"),
   ("MarsEventType#LOW_FREQUENCY", "LF"),
   ("MarsEventType#VERY_HIGH_FREQUENCY", "VF"),
   ("MarsEventType#HIGH_FREQUENCY", "HF"),
   ("MarsEventType#2.4_HZ", "24"),
   ("MarsEventType#SUPER_HIGH_FREQUENCY", "SF"),
   ("MarsEventType#DL-HIGH_FREQUENCY", "DL-HF"),
   ("MarsEventType#DL-VERY_HIGH_FREQUENCY", "DL-VF"),
   ("MarsEventType#DL-LOW_FREQUENCY", "DL-LF"),
   ("MarsEventType#DL-BROADBAND", "DL-BB"),
   ("MarsEventType#DL-WIDEBAND", "DL-WB"),
   ("MarsEventType#DL-2.4_HZ", "DL-24"),
   ("MarsEventType#DL-SUPER_HIGH_FREQUENCY", "DL-SF")]

/-- Lookup table `_EVENT_INTERPRETATION_KEYS` (lines 39-44). -/
def _EVENT_INTERPRETATION_KEYS : List (String × String) :=
  [("MarsEventTypeInterpretation#SWARM", "swarm"),
   ("MarsEventTypeInterpretation#IMPACT", "impact"),
   ("MarsEventTypeInterpretation#TECTONIC", "tectonic"),
   ("MarsEventTypeInterpretation#UNKNOWN", "unknown")]

/-- Shared loop of the three translators:
`for key, value in TABLE.items(): if key in input: return value` and a
final `return None`. -/
def _scan_code_table : List (String × String) → Py → PyM Py
  | [], _ => .ok Py.none
  | (k, v) :: rest, input => do
      let b ← input.containsOp k
      if b then pure (Py.str v) else _scan_code_table rest input

/-- Translator `_parse_quality` (lines 79-89). -/
def _parse_quality (quality : Py) : PyM Py :=
  if quality = Py.none then .ok Py.none
  else _scan_code_table _QUALITY_KEYS quality

/-- Translator `_parse_event_type` (lines 91-99). -/
def _parse_event_type (event_type : Py) : PyM Py :=
  if event_type = Py.none then .ok Py.none
  else _scan_code_table _EVENT_TYPE_KEYS event_type

/-- Translator `_parse_event_interpretation` (lines 47-55). -/
def _parse_event_interpretation (event_interpretation : Py) : PyM Py :=
  if event_interpretation = Py.none then .ok Py.none
  else _scan_code_table _EVENT_INTERPRETATION_KEYS event_interpretation

/-- The singleton-normalization idiom
`if not isinstance(x, list): x = [x]` followed by iteration. -/
def ensure_list (v : Py) : List Py :=
  match v with
  | .list l => l.toList
  | x => [x]

/-- Loop body of `_parse_event_name` (lines 57-77): dict descriptions
select the record typed "earthquake name"; string items re-read the
whole block and raise `ValueError` when its type is not
"earthquake name". -/
def _parse_event_name_loop (description : Py) (acc : Py) : List Py → PyM Py
  | [] => .ok acc
  | d :: rest =>
      match d with
      | .dict _ => do
          let t ← d.getItem "type"
          if t == Py.str "earthquake name" then do
            let txt ← d.getItem "text"
            _parse_event_name_loop description txt rest
          else _parse_event_name_loop description acc rest
      | .str _ => do
          let t ← description.getItem "type"
          if t == Py.str "earthquake name" then do
            let txt ← description.getItem "text"
            _parse_event_name_loop description txt rest
          else .error (.valueError "Invalid description")
      | _ => _parse_event_name_loop description acc rest

def _parse_event_name (description : Py) : PyM Py := do
  let items ← description.iter
  _parse_event_name_loop description Py.none items

/-- Builder `_parse_pick` (lines 239-270). -/
def _parse_pick (pick : Py) : PyM Pick := do
  if pick.isDict then do
    let public_id ← pick.getItem "@publicID"
    let tnode ← pick.getItem "time"
    let time ← UTCDateTime (← tnode.getItem "value")
    let phase_hint ← pick.getItem "phaseHint"
    let hasLower ← tnode.containsOp "lowerUncertainty"
    let lower ← if hasLower then tnode.getItem "lowerUncertainty" else pure Py.none
    let hasUpper ← tnode.containsOp "upperUncertainty"
    let upper ← if hasUpper then tnode.getItem "upperUncertainty" else pure Py.none
    let p : Pick := {}
    let p := p.set_public_id public_id
    let p := p.set_time time
    let p := p.set_phase_hint phase_hint
    let p := p.set_lower_uncertainty lower
    let p := p.set_upper_uncertainty upper
    pure p
  else .error (.valueError "Not a pick dictionary")

/-- Builder `_parse_arrival` (lines 272-308): the timestamp is
deliberately left null; uncertainty bounds are read from the arrival
node itself when present. -/
def _parse_arrival (arrival : Py) : PyM Arrival := do
  if arrival.isDict then do
    let public_id ← arrival.getItem "@publicID"
    let pick_id ← arrival.getItem "pickID"
    let time := Py.none
    let phase_label ← arrival.getItem "phase"
    let hasLower ← arrival.containsOp "lowerUncertainty"
    let lower ← if hasLower then arrival.getItem "lowerUncertainty" else pure Py.none
    let hasUpper ← arrival.containsOp "upperUncertainty"
    let upper ← if hasUpper then arrival.getItem "upperUncertainty" else pure Py.none
    let a : Arrival := {}
    let a := a.set_public_id public_id
    let a := a.set_pick_id pick_id
    let a := a.set_time time
    let a := a.set_phase_label phase_label
    let a ← a.set_lower_uncertainty lower
    let a ← a.set_upper_uncertainty upper
    pure a
  else .error (.valueError "Not an arrival dictionary")

/-- Optional nested element of `_parse_origin`:
`x = dflt` overwritten by `origin[key][sub]` when `key in origin`. -/
def _opt_subfield (origin : Py) (key sub : String) (dflt : Py) : PyM Py := do
  let b ← origin.containsOp key
  if b then (← origin.getItem key).getItem sub else pure dflt

/-- Optional direct element of `_parse_origin`: null unless
`key in origin`. -/
def _opt_field (origin : Py) (key : String) : PyM Py := do
  let b ← origin.containsOp key
  if b then origin.getItem key else pure Py.none

/-- Optional signal-to-noise ratio of `_parse_origin`:
`float(origin['mars:snr']['@snrMQS'])` when present, else null. -/
def _opt_snr (origin : Py) : PyM Py := do
  let b ← origin.containsOp "mars:snr"
  if b then pyFloat (← (← origin.getItem "mars:snr").getItem "@snrMQS") else pure Py.none

/-- Builder `_parse_origin` (lines 101-152): depth defaults to
`50 * 1000.0`; distance, back-azimuth, quality and snr are optional. -/
def _parse_origin (origin : Py) : PyM Origin := do
  if origin.isDict then do
    let origin_id ← origin.getItem "@publicID"
    let origin_time ← UTCDateTime (← (← origin.getItem "time").getItem "value")
    let latitude ← (← origin.getItem "latitude").getItem "value"
    let longitude ← (← origin.getItem "longitude").getItem "value"
    let depth ← _opt_subfield origin "depth" "value" (Py.num (decNat 50000))
    let quality ← _opt_field origin "mars:locationQuality"
    let mars_distance ← _opt_subfield origin "mars:distance" "mars:value" Py.none
    let mars_baz ← _opt_subfield origin "mars:BAZ" "mars:value" Py.none
    let snr ← _opt_snr origin
    let o : Origin := {}
    let o := o.set_public_id origin_id
    let o := o.set_origin_time origin_time
    let o := o.set_latitude latitude
    let o := o.set_longitude longitude
    let o := o.set_depth depth
    let o ← o.set_distance mars_distance
    let o := o.set_baz mars_baz
    let o := o.set_quality (← _parse_quality quality)
    let o := o.set_snr snr
    pure o
  else .error (.valueError "Invalid origin type")

/-- Builder `_parse_magnitude` (lines 154-185): returns null when the
node has no `mag` value element. -/
def _parse_magnitude (magnitude : Py) : PyM (Option Magnitude) := do
  if magnitude.isDict then do
    let mid ← magnitude.getItem "@publicID"
    let mtype ← magnitude.getItem "type"
    let morigin ← magnitude.getItem "originID"
    let hasMag ← magnitude.containsOp "mag"
    if hasMag then do
      let magNode ← magnitude.getItem "mag"
      let mvalue ← magNode.getItem "value"
      let hasLower ← magNode.containsOp "lowerUncertainty"
      let lower ← if hasLower then magNode.getItem "lowerUncertainty" else pure Py.none
      let hasUpper ← magNode.containsOp "upperUncertainty"
      let upper ← if hasUpper then magNode.getItem "upperUncertainty" else pure Py.none
      let m : Magnitude := {}
      let m := m.set_public_id mid
      let m := m.set_type mtype
      let m ← m.set_value mvalue
      let m ← m.set_lower_uncertainty lower
      let m ← m.set_upper_uncertainty upper
      let m := m.set_origin_id morigin
      pure (some m)
    else pure Option.none
  else .error (.valueError "Invalid magnitude type")

/-- Builder `_parse_event` (lines 188-237). -/
def _parse_event (event : Py) : PyM MarsEvent := do
  let public_id ← event.getItem "@publicID"
  let event_name ← _parse_event_name (← event.getItem "description")
  let hasMT ← event.containsOp "mars:type"
  let mars_event_type ← if hasMT then _parse_event_type (← event.getItem "mars:type")
    else pure Py.none
  let hasET ← event.containsOp "type"
  let earth_event_type ← if hasET then event.getItem "type" else pure Py.none
  let hasPO ← event.containsOp "preferredOriginID"
  let preferred_origin_id ← if hasPO then event.getItem "preferredOriginID" else pure Py.none
  let hasPM ← event.containsOp "preferredMagnitudeID"
  let preferred_magnitude_id ← if hasPM then event.getItem "preferredMagnitudeID"
    else pure Py.none
  let hasPick ← event.containsOp "pick"
  let parsed_picks ← if hasPick then do
      let picks ← event.getItem "pick"
      (ensure_list picks).mapM _parse_pick
    else pure []
  let e : MarsEvent := {}
  let e := e.set_public_id public_id
  let e := e.set_event_name event_name
  let e := e.set_mars_event_type mars_event_type
  let e := e.set_earth_event_type earth_event_type
  let e := e.set_preferred_origin_public_id preferred_origin_id
  let e := e.set_preferred_magnitude_public_id preferred_magnitude_id
  let e := e.set_picks parsed_picks
  pure e

/-- First-match pick update of `_associate_single_station_picks`
(lines 330-338): the `SingleStationPick` is constructed only when a
pick with the referenced id is found; first match wins. -/
def set_sst_on_first_match (ref : Py) (mk : PyM SingleStationPick) :
    List Pick → PyM (List Pick)
  | [] => .ok []
  | p :: rest =>
      if p.get_public_id == ref then do
        let sp ← mk
        pure (p.set_single_station_pick sp :: rest)
      else do
        let rest2 ← set_sst_on_first_match ref mk rest
        pure (p :: rest2)

/-- Body of the outer loop of `_associate_single_station_picks`
(lines 316-338). -/
def _associate_one_sst_pick (e : MarsEvent) (sst_pick : Py) : PyM MarsEvent := do
  let public_id ← sst_pick.getItem "@publicID"
  let hasFreq ← sst_pick.containsOp "sst:frequency"
  let fields ← if hasFreq then do
      let fn ← sst_pick.getItem "sst:frequency"
      let f ← fn.getItem "sst:value"
      let lo ← fn.getItem "sst:lowerUncertainty"
      let hi ← fn.getItem "sst:upperUncertainty"
      pure (f, lo, hi)
    else pure (Py.none, Py.none, Py.none)
  let pick_reference ← sst_pick.getItem "sst:pickReference"
  let mk : PyM SingleStationPick := do
    let sp : SingleStationPick := {}
    let sp := sp.set_public_id public_id
    let sp ← sp.set_frequency fields.1
    let sp ← sp.set_freq_lower_uncertainty fields.2.1
    let sp ← sp.set_freq_upper_uncertainty fields.2.2
    pure sp
  let picks2 ← set_sst_on_first_match pick_reference mk e.get_picks
  pure (e.set_picks picks2)

/-- `_associate_single_station_picks` (lines 310-338). -/
def _associate_single_station_picks (e : MarsEvent) (sst_picks : Py) : PyM MarsEvent := do
  if sst_picks.truthy then do
    let items ← sst_picks.iter
    items.foldlM (fun ev sp => _associate_one_sst_pick ev sp) e
  else pure e

/-- Arrival-pick resolution inlined in `read_catalog` (lines 402-417):
on a match the pick's timestamp and uncertainty bounds are copied onto
the arrival (through the arrival's float-coercing setters) and a shared
`SingleStationPick` is attached; on no match the arrival is returned
unchanged. -/
def resolve_arrival (e : MarsEvent) (a : Arrival) : PyM Arrival := do
  match e.get_pick_for_arrival a with
  | some p => do
      let a := a.set_time p.get_time
      let a ← a.set_lower_uncertainty p.get_lower_uncertainty
      let a ← a.set_upper_uncertainty p.get_upper_uncertainty
      match p.get_single_station_pick with
      | some sp => pure (a.set_single_station_pick sp)
      | Option.none => pure a
  | Option.none => pure a

/-- Per-origin block of the event loop (lines 385-419): parse the
origin, then parse and resolve its arrivals (normalizing a bare
`arrival` node into a one-element list). -/
def process_origin (e : MarsEvent) (origin : Py) : PyM Origin := do
  let o ← _parse_origin origin
  let hasArr ← origin.containsOp "arrival"
  let parsed_arrivals ← if hasArr then do
      let arrivals ← origin.getItem "arrival"
      (ensure_list arrivals).mapM (fun an => do
        let a ← _parse_arrival an
        resolve_arrival e a)
    else pure []
  pure (o.set_arrivals parsed_arrivals)

/-- Magnitude collection of the event loop (lines 427-430): parse each
node, skipping the ones `_parse_magnitude` resolves to null. -/
def collect_magnitudes : List Py → PyM (List Magnitude)
  | [] => .ok []
  | n :: rest => do
      let m? ← _parse_magnitude n
      let rest2 ← collect_magnitudes rest
      match m? with
      | some m => pure (m :: rest2)
      | Option.none => pure rest2

/-- Magnitude-origin association (lines 437-440): every magnitude is
appended to every origin whose public id equals its origin reference. -/
def associate_magnitudes (mags : List Magnitude) (origins : List Origin) : List Origin :=
  mags.foldl
    (fun ors m =>
      ors.map (fun o => if m.get_origin_id == o.get_public_id then o.append_magnitude m else o))
    origins

/-- Construction of a `SingleStationParameters` value from one
single-station-origin record (lines 453-479). -/
def build_sst_params (sst : Py) : PyM SingleStationParameters := do
  let sp : SingleStationParameters := {}
  let sp := sp.set_public_id (← sst.getItem "@publicID")
  let dNode ← (← sst.dictGet "sst:distance" (Py.dict .nil)).dictGet "sst:distance" (Py.dict .nil)
  let distance ← dNode.dictGet "sst:value" Py.none
  let pdf_distance ← dNode.dictGet "sst:pdf" (Py.dict .nil)
  let aNode ← (← sst.dictGet "sst:azimuth" (Py.dict .nil)).dictGet "sst:azimuth" (Py.dict .nil)
  let azimuth ← aNode.dictGet "sst:value" Py.none
  let pdf_azimuth ← aNode.dictGet "sst:pdf" (Py.dict .nil)
  let sp ← if distance.truthy then do
      let sp ← sp.set_sst_distance distance
      if pdf_distance.truthy then do
        let sp ← sp.set_sst_distance_variable (← pdf_distance.dictGet "sst:variable" Py.none)
        sp.set_sst_distance_pdf (← pdf_distance.dictGet "sst:probability" Py.none)
      else pure sp
    else pure sp
  let sp ← if azimuth.truthy then do
      let sp ← sp.set_sst_baz azimuth
      if pdf_azimuth.truthy then do
        let sp ← sp.set_sst_baz_variable (← pdf_azimuth.dictGet "sst:variable" Py.none)
        sp.set_sst_baz_pdf (← pdf_azimuth.dictGet "sst:probability" Py.none)
      else pure sp
    else pure sp
  pure sp

/-- Inner body of the single-station-origin association (lines
450-481): when the record's origin reference equals the origin's public
id, build the parameters and attach them; the origin's own distance and
back-azimuth fields are not written. -/
def apply_sst_record (sst : Py) (o : Origin) : PyM Origin := do
  let ref ← sst.getItem "sst:bedOriginReference"
  if ref == o.get_public_id then do
    let sp ← build_sst_params sst
    pure (o.set_sst_parameters sp)
  else pure o

/-- Single-station-origin association loop (lines 449-481).  Note that
`sst_origins` is iterated without singleton normalization. -/
def associate_sst_origins (sst_origins : Py) (origins : List Origin) : PyM (List Origin) := do
  if sst_origins.truthy then do
    let items ← sst_origins.iter
    items.foldlM (fun ors sst => ors.mapM (fun o => apply_sst_record sst o)) origins
  else pure origins

/-- Body of the per-event loop of `read_catalog` (lines 367-488), in
source order: parse the event and its picks, associate single-station
picks, parse origins (normalized) with their arrivals, collect
magnitudes (normalized), attach magnitudes to origins, force the
preferred-magnitude and preferred-origin caches, associate
single-station origins, then attach the origins to the event. -/
def process_event (sst_picks sst_origins : Py) (event : Py) : PyM MarsEvent := do
  let e ← _parse_event event
  let e ← _associate_single_station_picks e sst_picks
  let origins ← event.getItem "origin"
  let originsL := ensure_list origins
  let parsed_origins ← originsL.mapM (fun onode => process_origin e onode)
  let hasMag ← event.containsOp "magnitude"
  let parsed_magnitudes ← if hasMag then
      collect_magnitudes (ensure_list (← event.getItem "magnitude"))
    else pure []
  let e := e.set_magnitudes parsed_magnitudes
  let parsed_origins := associate_magnitudes parsed_magnitudes parsed_origins
  let e := (e.get_preferred_magnitude).1
  let e := (e.get_preferred_origin).1
  let parsed_origins ← associate_sst_origins sst_origins parsed_origins
  let e := e.set_origins parsed_origins
  pure e

/-- `read_catalog` (lines 340-497) from the decoded document tree
onwards: extract the event node and the optional document-wide
single-station collections, then run the per-event loop.  The event
collection is iterated as-is, without singleton normalization. -/
def read_catalog (catalog : Py) (catalog_file : Py) : PyM Catalog := do
  let qml ← catalog.getItem "q:quakeml"
  let events ← (← qml.getItem "eventParameters").getItem "event"
  let hasSst ← qml.containsOp "sst:singleStationParameters"
  let sstPair ← if hasSst then do
      let sst_parameters ← qml.getItem "sst:singleStationParameters"
      let so ← if sst_parameters.truthy then do
          let h ← sst_parameters.containsOp "sst:singleStationOrigin"
          if h then sst_parameters.getItem "sst:singleStationOrigin" else pure Py.none
        else pure Py.none
      let sp ← if sst_parameters.truthy then do
          let h ← sst_parameters.containsOp "sst:singleStationPick"
          if h then sst_parameters.getItem "sst:singleStationPick" else pure Py.none
        else pure Py.none
      pure (so, sp)
    else pure (Py.none, Py.none)
  let eventItems ← events.iter
  let parsed_events ← eventItems.mapM (fun ev => process_event sstPair.2 sstPair.1 ev)
  pure { events := parsed_events, catalog_file := catalog_file }

/-! Concrete documents used as test inputs for the claims. -/

/-- Shorthand for string scalars in document literals. -/
def S (s : String) : Py := Py.str s

/-- Shorthand for dict nodes in document literals. -/
def D (l : List (String × Py)) : Py := Py.dict (pyD l)

/-- Shorthand for list nodes in document literals. -/
def L (l : List Py) : Py := Py.list (pyL l)

/-- A full event node: one pick (bare node), one origin (bare node)
with one arrival referencing the pick, two magnitude nodes (the second
lacking a `mag` element), preferred references to `O1` and `M1`. -/
def eventNodeE1 : Py :=
  D [("@publicID", S "E1"),
     ("description", D [("type", S "earthquake name"), ("text", S "S0001a")]),
     ("preferredOriginID", S "O1"),
     ("preferredMagnitudeID", S "M1"),
     ("pick",
      D [("@publicID", S "P1"),
         ("time", D [("value", S "2019-01-01T00:00:00Z"),
                     ("lowerUncertainty", S "0.4"),
                     ("upperUncertainty", S "0.6")]),
         ("phaseHint", S "P")]),
     ("origin",
      D [("@publicID", S "O1"),
         ("time", D [("value", S "2019-01-01T00:01:00Z")]),
         ("latitude", D [("value", S "10.0")]),
         ("longitude", D [("value", S "20.0")]),
         ("arrival",
          D [("@publicID", S "A1"),
             ("pickID", S "P1"),
             ("phase", S "P")])]),
     ("magnitude",
      L [D [("@publicID", S "M1"),
            ("type", S "mb"),
            ("originID", S "O1"),
            ("mag", D [("value", S "2.4")])],
         D [("@publicID", S "M2"),
            ("type", S "mw"),
            ("originID", S "O1")]])]

/-- Document-wide single-station collections: one single-station pick
referencing `P1` and one single-station origin referencing `O1` with a
distance estimate, distance PDF samples and a back-azimuth estimate. -/
def sstBlock : Py :=
  D [("sst:singleStationPick",
      L [D [("@publicID", S "SSTP1"),
            ("sst:pickReference", S "P1"),
            ("sst:frequency", D [("sst:value", S "2.4"),
                                 ("sst:lowerUncertainty", S "0.1"),
                                 ("sst:upperUncertainty", S "0.2")])]]),
     ("sst:singleStationOrigin",
      L [D [("@publicID", S "SSTO1"),
            ("sst:bedOriginReference", S "O1"),
            ("sst:distance",
             D [("sst:distance",
                 D [("sst:value", S "30.5"),
                    ("sst:pdf", D [("sst:variable", S "1 2"),
                                   ("sst:probability", S "0.25 0.75")])])]),
            ("sst:azimuth",
             D [("sst:azimuth", D [("sst:value", S "42.0")])])]])]

/-- Main test document: a one-element event list plus the
single-station extension block. -/
def docMain : Py :=
  D [("q:quakeml",
      D [("eventParameters", D [("event", L [eventNodeE1])]),
         ("sst:singleStationParameters", sstBlock)])]

/-- Document whose event element is a single bare node (not a
one-element list). -/
def docBareEvent : Py :=
  D [("q:quakeml",
      D [("eventParameters", D [("event", eventNodeE1)])])]

/-- The same event, with the bare origin node wrapped in a one-element
list. -/
def eventNodeE1ListedOrigin : Py :=
  D [("@publicID", S "E1"),
     ("description", D [("type", S "earthquake name"), ("text", S "S0001a")]),
     ("preferredOriginID", S "O1"),
     ("preferredMagnitudeID", S "M1"),
     ("pick",
      D [("@publicID", S "P1"),
         ("time", D [("value", S "2019-01-01T00:00:00Z"),
                     ("lowerUncertainty", S "0.4"),
                     ("upperUncertainty", S "0.6")]),
         ("phaseHint", S "P")]),
     ("origin",
      L [D [("@publicID", S "O1"),
            ("time", D [("value", S "2019-01-01T00:01:00Z")]),
            ("latitude", D [("value", S "10.0")]),
            ("longitude", D [("value", S "20.0")]),
            ("arrival",
             D [("@publicID", S "A1"),
                ("pickID", S "P1"),
                ("phase", S "P")])]]),
     ("magnitude",
      L [D [("@publicID", S "M1"),
            ("type", S "mb"),
            ("originID", S "O1"),
            ("mag", D [("value", S "2.4")])],
         D [("@publicID", S "M2"),
            ("type", S "mw"),
            ("originID", S "O1")]])]

/-- Main document with the origin wrapped in a one-element list. -/
def docMainListedOrigin : Py :=
  D [("q:quakeml",
      D [("eventParameters", D [("event", L [eventNodeE1ListedOrigin])]),
         ("sst:singleStationParameters", sstBlock)])]

/-- Document with one event whose arrival references a pick id that
matches no pick, and whose arrival node carries its own
`lowerUncertainty` element. -/
def docDangling : Py :=
  D [("q:quakeml",
      D [("eventParameters",
          D [("event",
              L [D [("@publicID", S "E2"),
                    ("description", D [("type", S "earthquake name"), ("text", S "S0002b")]),
                    ("pick",
                     D [("@publicID", S "P1"),
                        ("time", D [("value", S "2019-02-02T00:00:00Z")]),
                        ("phaseHint", S "P")]),
                    ("origin",
                     D [("@publicID", S "O1"),
                        ("time", D [("value", S "2019-02-02T00:01:00Z")]),
                        ("latitude", D [("value", S "11.0")]),
                        ("longitude", D [("value", S "21.0")]),
                        ("arrival",
                         D [("@publicID", S "A2"),
                            ("pickID", S "PX"),
                            ("phase", S "S"),
                            ("lowerUncertainty", S "0.5")])])]])])])]

/-! Helper lemmas. -/

theorem pym_bind_ok {α β : Type} {e : PyM α} {k : α → PyM β} {b : β} :
    (e >>= k) = .ok b ↔ ∃ a, e = .ok a ∧ k a = .ok b := by
  cases e <;> simp [Bind.bind, Except.bind]

theorem pym_pure_ok {α : Type} {a b : α} :
    (pure a : PyM α) = .ok b ↔ a = b := by
  simp [Pure.pure, Except.pure]

theorem py_beq_iff {a b : Py} : (a == b) = true ↔ a = b := by
  simp [BEq.beq]

/-- First-match characterization of a code table, stated with
`List.find?` for comparison with the translator loops. -/
def tableFirstMatch (table : List (String × String)) (s : String) : Py :=
  match table.find? (fun kv => strContains s kv.1) with
  | some kv => Py.str kv.2
  | Option.none => Py.none

theorem scan_code_table_str (table : List (String × String)) (s : String) :
    _scan_code_table table (Py.str s) = .ok (tableFirstMatch table s) := by
  induction table with
  | nil => rfl
  | cons kv rest ih =>
      obtain ⟨k, v⟩ := kv
      simp only [_scan_code_table, Py.containsOp, tableFirstMatch, List.find?, pym_bind_ok]
      by_cases h : strContains s k
      · exact ⟨strContains s k, rfl, by simp [h, Pure.pure, Except.pure]⟩
      · refine ⟨strContains s k, rfl, ?_⟩
        simp only [h]
        simpa [tableFirstMatch, h] using ih

/-! Claim theorems. -/

/-- Claim C7 (confirmed): each of the three code translators, applied
to a string, returns the short code of the first table entry (in table
order) whose code string is a substring of the input, and null when no
entry matches (this is the `find?`-characterization, which yields null
when nothing matches); applied to null each returns null.  All results
are `.ok`: the translators never raise. -/
theorem claim_C7_translators_first_substring_match :
    ∀ s : String,
      (_parse_quality (Py.str s) = .ok (tableFirstMatch _QUALITY_KEYS s)
       ∧ _parse_event_type (Py.str s) = .ok (tableFirstMatch _EVENT_TYPE_KEYS s)
       ∧ _parse_event_interpretation (Py.str s)
           = .ok (tableFirstMatch _EVENT_INTERPRETATION_KEYS s))
      ∧ (_parse_quality Py.none = .ok Py.none
         ∧ _parse_event_type Py.none = .ok Py.none
         ∧ _parse_event_interpretation Py.none = .ok Py.none) := by
  intro s
  refine ⟨⟨?_, ?_, ?_⟩, ⟨rfl, rfl, rfl⟩⟩
  · simpa [_parse_quality] using scan_code_table_str _QUALITY_KEYS s
  · simpa [_parse_event_type] using scan_code_table_str _EVENT_TYPE_KEYS s
  · simpa [_parse_event_interpretation] using scan_code_table_str _EVENT_INTERPRETATION_KEYS s

/-- Claim C2 (corrected): the counterexample.  A well-formed document
in which the repeatable `event` element occurs exactly once as a bare
node is not normalized into a one-element collection: iteration walks
the mapping's keys and subscripting the first key string raises a
`TypeError`, so ingestion fails instead of producing a one-event
catalog. -/
theorem claim_C2_counterexample :
    read_catalog docBareEvent (S "f") = Except.error PyErr.typeError
    ∧ read_catalog docMain (S "f")
        ≠ Except.error PyErr.typeError := by
  constructor
  · decide
  · decide

set_option maxRecDepth 10000

/-- Claim C2 (corrected, amended): ingestion normalizes a single bare
occurrence into a one-element collection for the origin, arrival,
magnitude and pick lists (`ensure_list` maps a bare mapping node to a
one-element list and a collection to itself, and a document whose event
holds one bare origin node ingests identically to the same document
with the origin wrapped in a one-element list, yielding an origin list
of length 1) — but not for the event list nor the single-station-record
lists, which are iterated as-is. -/
theorem claim_C2_theorem :
    read_catalog docMain (S "f") = read_catalog docMainListedOrigin (S "f")
    ∧ (read_catalog docMain (S "f")).map (fun c => c.events.map (fun e => e.origins.length))
        = .ok [1]
    ∧ (∀ d : PyDict, ensure_list (Py.dict d) = [Py.dict d])
    ∧ (∀ l : PyList, ensure_list (Py.list l) = l.toList) := by
  refine ⟨by decide, by decide, fun d => rfl, fun l => rfl⟩

/-- Claim C5 (code bug): in the returned catalog the event's
preferred-origin cache is still null even though its
preferred-origin-id matches an owned origin, because `read_catalog`
invokes `get_preferred_origin()` (step 6) before `set_origins()`; the
first later reader performs the resolution itself.  The
preferred-magnitude cache, whose collection is attached before step 6,
is populated as the claim states. -/
theorem claim_C5_preferred_origin_cache_not_written_in_step6 :
    (read_catalog docMain (S "f")).map
        (fun c => ((c.events.headD {}).preferred_origin,
                   (c.events.headD {}).preferred_origin_id,
                   (c.events.headD {}).origins.map (fun o => o.public_id)))
      = .ok (Option.none, S "O1", [S "O1"])
    ∧ (read_catalog docMain (S "f")).map
        (fun c => (((c.events.headD {}).get_preferred_origin).2).map (fun o => o.public_id))
      = .ok (some (S "O1"))
    ∧ (read_catalog docMain (S "f")).map
        (fun c => ((c.events.headD {}).preferred_magnitude).map (fun m => m.public_id))
      = .ok (some (S "M1")) := by
  refine ⟨by decide, by decide, by decide⟩

theorem find?_of_unique {α : Type} (l : List α) (p : α → Bool) (a : α)
    (ha : a ∈ l) (hpa : p a = true)
    (huniq : ∀ b ∈ l, p b = true → b = a) :
    l.find? p = some a := by
  cases hf : l.find? p with
  | none => exact absurd hpa (by simpa using List.find?_eq_none.mp hf a ha)
  | some x =>
      exact congrArg some (huniq x (List.mem_of_find?_eq_some hf) (List.find?_some hf))

theorem find?_of_nomatch {α : Type} (l : List α) (p : α → Bool)
    (h : ∀ b ∈ l, p b = false) :
    l.find? p = Option.none := by
  apply List.find?_eq_none.mpr
  intro x hx
  simp [h x hx]

/-- Claim C4 (confirmed): with an unresolved cache, the preferred
accessors scan the owned collections; when the preferred reference
matches exactly one owned entity the accessor returns that very list
element (the matched element itself, not a rebuilt value), and when it
matches none the accessor returns null — it is a total function, so no
error can be raised. -/
theorem claim_C4_preferred_resolution (e : MarsEvent)
    (hO : e.preferred_origin = Option.none)
    (hM : e.preferred_magnitude = Option.none) :
    (∀ o : Origin, o ∈ e.origins → o.public_id = e.preferred_origin_id →
      (∀ o2 : Origin, o2 ∈ e.origins → o2.public_id = e.preferred_origin_id → o2 = o) →
      (e.get_preferred_origin).2 = some o)
    ∧ ((∀ o : Origin, o ∈ e.origins → o.public_id ≠ e.preferred_origin_id) →
      (e.get_preferred_origin).2 = Option.none)
    ∧ (∀ m : Magnitude, m ∈ e.magnitudes → m.public_id = e.preferred_magnitude_id →
      (∀ m2 : Magnitude, m2 ∈ e.magnitudes → m2.public_id = e.preferred_magnitude_id → m2 = m) →
      (e.get_preferred_magnitude).2 = some m)
    ∧ ((∀ m : Magnitude, m ∈ e.magnitudes → m.public_id ≠ e.preferred_magnitude_id) →
      (e.get_preferred_magnitude).2 = Option.none) := by
  refine ⟨?_, ?_, ?_, ?_⟩
  · intro o ho hid huniq
    have hf : e.origins.find? (fun o2 => o2.public_id == e.preferred_origin_id) = some o := by
      apply find?_of_unique _ _ _ ho (py_beq_iff.mpr hid)
      intro b hb hpb
      exact huniq b hb (py_beq_iff.mp hpb)
    simp [MarsEvent.get_preferred_origin, hO, hf]
  · intro hnone
    have hf : e.origins.find? (fun o2 => o2.public_id == e.preferred_origin_id)
        = Option.none := by
      apply find?_of_nomatch
      intro b hb
      exact (Bool.not_eq_true _).mp (fun hpb => hnone b hb (py_beq_iff.mp hpb))
    simp [MarsEvent.get_preferred_origin, hO, hf]
  · intro m hm hid huniq
    have hf : e.magnitudes.find? (fun m2 => m2.public_id == e.preferred_magnitude_id)
        = some m := by
      apply find?_of_unique _ _ _ hm (py_beq_iff.mpr hid)
      intro b hb hpb
      exact huniq b hb (py_beq_iff.mp hpb)
    simp [MarsEvent.get_preferred_magnitude, hM, hf]
  · intro hnone
    have hf : e.magnitudes.find? (fun m2 => m2.public_id == e.preferred_magnitude_id)
        = Option.none := by
      apply find?_of_nomatch
      intro b hb
      exact (Bool.not_eq_true _).mp (fun hpb => hnone b hb (py_beq_iff.mp hpb))
    simp [MarsEvent.get_preferred_magnitude, hM, hf]

/-- Event with one origin and one magnitude whose preferred references
resolve. -/
def c4Event : MarsEvent :=
  { origins := [{ public_id := S "O9" }],
    magnitudes := [{ public_id := S "M9" }],
    preferred_origin_id := S "O9",
    preferred_magnitude_id := S "M9" }

/-- Event whose preferred-origin reference matches no owned origin. -/
def c4EventNoMatch : MarsEvent :=
  { origins := [{ public_id := S "O9" }], preferred_origin_id := S "OX" }

/-- Witness for claim C4 at concrete events. -/
theorem claim_C4_witness :
    (c4Event.get_preferred_origin).2 = some { public_id := S "O9" }
    ∧ (c4Event.get_preferred_magnitude).2 = some { public_id := S "M9" }
    ∧ (c4EventNoMatch.get_preferred_origin).2 = Option.none := by
  refine ⟨?_, ?_, ?_⟩
  · exact (claim_C4_preferred_resolution c4Event rfl rfl).1 { public_id := S "O9" }
      (by decide) (by decide) (by decide)
  · exact (claim_C4_preferred_resolution c4Event rfl rfl).2.2.1 { public_id := S "M9" }
      (by decide) (by decide) (by decide)
  · exact (claim_C4_preferred_resolution c4EventNoMatch rfl rfl).2.1 (by decide)

theorem pyFloatCoerce_none : pyFloatCoerce Py.none = Except.ok Py.none := rfl

theorem pyFloatCoerce_id {v w : Py} (h : pyFloatCoerce v = .ok w)
    (hv : v.truthy = false ∨ v.isFloat = true) : w = v := by
  unfold pyFloatCoerce at h
  rcases hv with hv | hv <;> simp [hv] at h <;> exact h.symm

/-- Claim C1 (corrected): the counterexample.  In the ingested main
document the arrival resolves to the pick with the same id, yet the
arrival's lower uncertainty (the parsed float 0.4) is not equal to the
pick's lower uncertainty (the raw document string "0.4"): the arrival's
setter coerces through Python `float` while the pick keeps the raw
value, so the two bounds differ as values. -/
theorem claim_C1_counterexample :
    (read_catalog docMain (S "f")).map
        (fun c =>
          ((((c.events.headD {}).origins.headD {}).arrivals.headD {}).pick_id,
           ((c.events.headD {}).picks.headD {}).public_id,
           (((c.events.headD {}).origins.headD {}).arrivals.headD {}).lower_uncertainty,
           ((c.events.headD {}).picks.headD {}).lower_uncertainty))
      = .ok (S "P1", S "P1", Py.num { neg := false, ip := 0, fp := [4] }, S "0.4")
    ∧ Py.num { neg := false, ip := 0, fp := [4] } ≠ S "0.4" :=
  ⟨by decide, by decide⟩

/-- Claim C1 (corrected, amended): for every arrival whose pick
reference resolves within its event, linking copies the pick's
timestamp onto the arrival unchanged, sets the arrival's uncertainty
bounds to the Python `float` coercion of the pick's bounds (the same
numeric value; the identical value exactly when the pick's bound is
already a float, or is empty or null), and shares the pick's
single-station extension with the arrival. -/
theorem claim_C1_theorem (e : MarsEvent) (a a2 : Arrival) (p : Pick)
    (hp : e.get_pick_for_arrival a = some p)
    (hr : resolve_arrival e a = .ok a2) :
    a2.time = p.time
    ∧ Except.ok a2.lower_uncertainty = pyFloatCoerce p.lower_uncertainty
    ∧ Except.ok a2.upper_uncertainty = pyFloatCoerce p.upper_uncertainty
    ∧ ((p.lower_uncertainty.truthy = false ∨ p.lower_uncertainty.isFloat = true) →
        a2.lower_uncertainty = p.lower_uncertainty)
    ∧ ((p.upper_uncertainty.truthy = false ∨ p.upper_uncertainty.isFloat = true) →
        a2.upper_uncertainty = p.upper_uncertainty)
    ∧ (∀ sp : SingleStationPick, p.single_station_pick = some sp →
        a2.single_station_pick = some sp) := by
  unfold resolve_arrival at hr
  rw [hp] at hr
  simp only [Arrival.set_time, Pick.get_time, Arrival.set_lower_uncertainty,
    Pick.get_lower_uncertainty, Arrival.set_upper_uncertainty, Pick.get_upper_uncertainty,
    Pick.get_single_station_pick, Arrival.set_single_station_pick,
    pym_bind_ok, pym_pure_ok] at hr
  obtain ⟨a3, ⟨l, hl, rfl⟩, hr⟩ := hr
  obtain ⟨a4, ⟨u, hu, rfl⟩, hr⟩ := hr
  cases hsp : p.single_station_pick with
  | some sp0 =>
      rw [hsp] at hr
      rw [pym_pure_ok] at hr
      subst hr
      refine ⟨rfl, by simpa using hl.symm, by simpa using hu.symm, ?_, ?_, ?_⟩
      · intro hc
        simpa using pyFloatCoerce_id hl hc
      · intro hc
        simpa using pyFloatCoerce_id hu hc
      · intro sp hsp2
        cases hsp2
        rfl
  | none =>
      rw [hsp] at hr
      rw [pym_pure_ok] at hr
      subst hr
      refine ⟨rfl, by simpa using hl.symm, by simpa using hu.symm, ?_, ?_, ?_⟩
      · intro hc
        simpa using pyFloatCoerce_id hl hc
      · intro hc
        simpa using pyFloatCoerce_id hu hc
      · intro sp hsp2
        exact Option.noConfusion hsp2

/-- Pick, arrival and event used by the C1 witness. -/
def c1Pick : Pick :=
  { public_id := S "P1", time := Py.utc "2019-01-01T00:00:00Z",
    lower_uncertainty := S "0.4", upper_uncertainty := Py.none }

def c1Event : MarsEvent := { picks := [c1Pick] }

def c1Arrival : Arrival := { public_id := S "A1", pick_id := S "P1" }

def c1Resolved : Arrival :=
  { public_id := S "A1", pick_id := S "P1", time := Py.utc "2019-01-01T00:00:00Z",
    lower_uncertainty := Py.num { neg := false, ip := 0, fp := [4] },
    upper_uncertainty := Py.none }

/-- Witness for claim C1 at a concrete resolvable arrival. -/
theorem claim_C1_witness :
    resolve_arrival c1Event c1Arrival = .ok c1Resolved
    ∧ c1Resolved.time = c1Pick.time
    ∧ Except.ok c1Resolved.lower_uncertainty = pyFloatCoerce c1Pick.lower_uncertainty
    ∧ c1Resolved.upper_uncertainty = c1Pick.upper_uncertainty := by
  have h := claim_C1_theorem c1Event c1Arrival c1Resolved c1Pick (by decide) (by decide)
  exact ⟨by decide, h.1, h.2.1, h.2.2.2.2.1 (Or.inl (by decide))⟩

/-- Claim C8 (corrected): the counterexample.  In the
dangling-reference document the only arrival references pick id "PX"
while the event's picks are ["P1"]; after ingestion the arrival's
timestamp is null but its lower uncertainty is the parsed float 0.5,
extracted by the arrival builder from the arrival node's own
`lowerUncertainty` element — not null as the claim states. -/
theorem claim_C8_counterexample :
    (read_catalog docDangling (S "g")).map
        (fun c =>
          ((c.events.headD {}).picks.map (fun p => p.public_id),
           (((c.events.headD {}).origins.headD {}).arrivals.headD {}).pick_id,
           (((c.events.headD {}).origins.headD {}).arrivals.headD {}).time,
           (((c.events.headD {}).origins.headD {}).arrivals.headD {}).lower_uncertainty))
      = .ok ([S "P1"], S "PX", Py.none, Py.num { neg := false, ip := 0, fp := [5] })
    ∧ Py.num { neg := false, ip := 0, fp := [5] } ≠ Py.none :=
  ⟨by decide, by decide⟩

/-- Claim C8 (corrected, amended): for every arrival whose pick
reference matches no pick of its event, the linking step returns the
arrival unchanged and raises no error — the timestamp stays null (the
builder never sets it) and the uncertainty bounds stay exactly as the
builder extracted them, which is null unless the arrival node itself
carried uncertainty elements; ingestion of the dangling-reference
document completes, with the unresolved arrival still appended to its
origin's arrival list and a null timestamp. -/
theorem claim_C8_theorem (e : MarsEvent) (a : Arrival)
    (h : e.get_pick_for_arrival a = Option.none) :
    resolve_arrival e a = .ok a
    ∧ (read_catalog docDangling (S "g")).map
        (fun c => (c.events.map (fun ev => ev.origins.map (fun o => o.arrivals.length)),
                   (((c.events.headD {}).origins.headD {}).arrivals.headD {}).time))
      = .ok ([[1]], Py.none) := by
  constructor
  · unfold resolve_arrival
    rw [h]
    rfl
  · decide

/-- Witness for claim C8 at a concrete unresolvable arrival. -/
theorem claim_C8_witness :
    resolve_arrival c1Event { pick_id := S "PX" } = .ok { pick_id := S "PX" } :=
  (claim_C8_theorem c1Event { pick_id := S "PX" } (by decide)).1

/-- Claim C6 (confirmed): for a magnitude node (a mapping with the
mandatory identifier, type and owning-origin fields) without a `mag`
value element, the builder returns null rather than an entity, raises
no error, and the node contributes nothing to the collected magnitude
list; for a node with a `mag` value element the builder returns a
Magnitude carrying the identifier, type, owning-origin reference, the
float-coerced value, and the float-coerced optional uncertainty
bounds. -/
theorem claim_C6_theorem (d : PyDict) (pid mty oid : Py)
    (h1 : d.lookup "@publicID" = some pid)
    (h2 : d.lookup "type" = some mty)
    (h3 : d.lookup "originID" = some oid) :
    (d.lookup "mag" = Option.none →
      _parse_magnitude (Py.dict d) = .ok Option.none
      ∧ ∀ rest : List Py, collect_magnitudes (Py.dict d :: rest) = collect_magnitudes rest)
    ∧ (∀ (md : PyDict) (v v2 l2 u2 : Py),
        d.lookup "mag" = some (Py.dict md) →
        md.lookup "value" = some v →
        pyFloatCoerce v = .ok v2 →
        pyFloatCoerce ((md.lookup "lowerUncertainty").getD Py.none) = .ok l2 →
        pyFloatCoerce ((md.lookup "upperUncertainty").getD Py.none) = .ok u2 →
        _parse_magnitude (Py.dict d)
          = .ok (some { public_id := pid, origin_id := oid, magnitude_type := mty,
                        magnitude_value := v2, lower_uncertainty := l2,
                        upper_uncertainty := u2, is_calculated := false })) := by
  constructor
  · intro hmag
    have hparse : _parse_magnitude (Py.dict d) = .ok Option.none := by
      simp [_parse_magnitude, Py.isDict, Py.getItem, Py.containsOp, PyDict.hasKey,
        h1, h2, h3, hmag, pym_bind_ok, pym_pure_ok, Bind.bind, Except.bind,
        Pure.pure, Except.pure]
    refine ⟨hparse, fun rest => ?_⟩
    simp [collect_magnitudes, hparse, pym_bind_ok, Bind.bind, Except.bind]
    cases hc : collect_magnitudes rest <;> rfl
  · intro md v v2 l2 u2 hmag hv hcv hcl hcu
    cases hlo : md.lookup "lowerUncertainty" with
    | none =>
        rw [hlo] at hcl
        simp only [Option.getD] at hcl
        rw [pyFloatCoerce_none] at hcl
        injection hcl with hl2
        subst hl2
        cases hup : md.lookup "upperUncertainty" with
        | some u =>
            rw [hup] at hcu
            simp only [Option.getD] at hcu
            simp [_parse_magnitude, Py.isDict, Py.getItem, Py.containsOp, PyDict.hasKey,
              h1, h2, h3, hmag, hv, hlo, hup, Magnitude.set_value,
              Magnitude.set_lower_uncertainty, Magnitude.set_upper_uncertainty,
              hcv, hcu, pyFloatCoerce_none, pym_bind_ok, pym_pure_ok, Bind.bind,
              Except.bind, Pure.pure, Except.pure, Magnitude.set_public_id,
              Magnitude.set_type, Magnitude.set_origin_id]
        | none =>
            rw [hup] at hcu
            simp only [Option.getD] at hcu
            rw [pyFloatCoerce_none] at hcu
            injection hcu with hu2
            subst hu2
            simp [_parse_magnitude, Py.isDict, Py.getItem, Py.containsOp, PyDict.hasKey,
              h1, h2, h3, hmag, hv, hlo, hup, Magnitude.set_value,
              Magnitude.set_lower_uncertainty, Magnitude.set_upper_uncertainty,
              hcv, pyFloatCoerce_none, pym_bind_ok, pym_pure_ok, Bind.bind,
              Except.bind, Pure.pure, Except.pure, Magnitude.set_public_id,
              Magnitude.set_type, Magnitude.set_origin_id]
    | some l =>
        rw [hlo] at hcl
        simp only [Option.getD] at hcl
        cases hup : md.lookup "upperUncertainty" with
        | some u =>
            rw [hup] at hcu
            simp only [Option.getD] at hcu
            simp [_parse_magnitude, Py.isDict, Py.getItem, Py.containsOp, PyDict.hasKey,
              h1, h2, h3, hmag, hv, hlo, hup, Magnitude.set_value,
              Magnitude.set_lower_uncertainty, Magnitude.set_upper_uncertainty,
              hcv, hcl, hcu, pym_bind_ok, pym_pure_ok, Bind.bind, Except.bind,
              Pure.pure, Except.pure, Magnitude.set_public_id, Magnitude.set_type,
              Magnitude.set_origin_id]
        | none =>
            rw [hup] at hcu
            simp only [Option.getD] at hcu
            rw [pyFloatCoerce_none] at hcu
            injection hcu with hu2
            subst hu2
            simp [_parse_magnitude, Py.isDict, Py.getItem, Py.containsOp, PyDict.hasKey,
              h1, h2, h3, hmag, hv, hlo, hup, Magnitude.set_value,
              Magnitude.set_lower_uncertainty, Magnitude.set_upper_uncertainty,
              hcv, hcl, pyFloatCoerce_none, pym_bind_ok, pym_pure_ok, Bind.bind,
              Except.bind, Pure.pure, Except.pure, Magnitude.set_public_id,
              Magnitude.set_type, Magnitude.set_origin_id]

/-- The two magnitude dicts of the main document, reused by the C6
witness: `M1` has a `mag` value element, `M2` does not. -/
def c6MagWithValue : PyDict :=
  pyD [("@publicID", S "M1"), ("type", S "mb"), ("originID", S "O1"),
       ("mag", D [("value", S "2.4")])]

def c6MagNoValue : PyDict :=
  pyD [("@publicID", S "M2"), ("type", S "mw"), ("originID", S "O1")]

/-- Witness for claim C6 at the two concrete magnitude nodes. -/
theorem claim_C6_witness :
    (_parse_magnitude (Py.dict c6MagNoValue) = .ok Option.none
     ∧ collect_magnitudes [Py.dict c6MagNoValue] = collect_magnitudes [])
    ∧ _parse_magnitude (Py.dict c6MagWithValue)
        = .ok (some { public_id := S "M1", origin_id := S "O1", magnitude_type := S "mb",
                      magnitude_value := Py.num { neg := false, ip := 2, fp := [4] },
                      lower_uncertainty := Py.none, upper_uncertainty := Py.none,
                      is_calculated := false }) := by
  constructor
  · have h := (claim_C6_theorem c6MagNoValue (S "M2") (S "mw") (S "O1")
      (by decide) (by decide) (by decide)).1 (by decide)
    exact ⟨h.1, h.2 []⟩
  · exact (claim_C6_theorem c6MagWithValue (S "M1") (S "mb") (S "O1")
      (by decide) (by decide) (by decide)).2
      (pyD [("value", S "2.4")]) (S "2.4")
      (Py.num { neg := false, ip := 2, fp := [4] }) Py.none Py.none
      (by decide) (by decide) (by decide) (by decide) (by decide)

theorem associate_magnitudes_cons (m : Magnitude) (ms : List Magnitude)
    (origins : List Origin) :
    associate_magnitudes (m :: ms) origins
      = associate_magnitudes ms
          (origins.map (fun o =>
            if m.get_origin_id == o.get_public_id then o.append_magnitude m else o)) := rfl

theorem associate_magnitudes_characterization (mags : List Magnitude)
    (origins : List Origin) :
    associate_magnitudes mags origins
      = origins.map (fun o =>
          { o with magnitudes :=
              o.magnitudes ++ mags.filter (fun m => m.get_origin_id == o.get_public_id) }) := by
  induction mags generalizing origins with
  | nil => simp [associate_magnitudes]
  | cons m ms ih =>
      rw [associate_magnitudes_cons, ih, List.map_map]
      apply List.map_congr_left
      intro o _
      simp only [Function.comp]
      cases hc : m.get_origin_id == o.get_public_id with
      | true =>
          have hc2 : m.origin_id = o.public_id := py_beq_iff.mp hc
          simp [hc, hc2, Origin.append_magnitude, List.filter_cons, Origin.get_public_id,
            Magnitude.get_origin_id]
      | false =>
          have hc' : (m.origin_id == o.public_id) = false := hc
          have hc2 : ¬ m.origin_id = o.public_id := by
            intro he
            rw [py_beq_iff.mpr he] at hc'
            cases hc'
          simp [hc', hc2, List.filter_cons, Origin.get_public_id, Magnitude.get_origin_id]

/-- Claim C9 (confirmed): associating the event's flat magnitude list
with its origins appends to each origin exactly the flat-list
magnitudes whose owning-origin reference equals that origin's id — the
very same values that remain in the event's flat list, so the two
occurrences are exactly equal at link time; in particular, a magnitude
matching an origin with an empty magnitude list appears in that
origin's list and in the flat list, and in the ingested main document
the origin's magnitude list and the event's flat list hold the same
value. -/
theorem claim_C9_theorem (mags : List Magnitude) (origins : List Origin) :
    (associate_magnitudes mags origins
      = origins.map (fun o =>
          { o with magnitudes :=
              o.magnitudes ++ mags.filter (fun m => m.get_origin_id == o.get_public_id) }))
    ∧ (∀ (m : Magnitude) (o : Origin), m ∈ mags → o ∈ origins →
        m.origin_id = o.public_id → o.magnitudes = [] →
        { o with magnitudes :=
            mags.filter (fun m2 : Magnitude => m2.get_origin_id == o.get_public_id) }
            ∈ associate_magnitudes mags origins
          ∧ m ∈ mags.filter (fun m2 : Magnitude => m2.get_origin_id == o.get_public_id))
    ∧ (read_catalog docMain (S "f")).map
        (fun c => ((((c.events.headD {}).origins.headD {}).magnitudes,
                    (c.events.headD {}).magnitudes)))
      = .ok ([{ public_id := S "M1", origin_id := S "O1", magnitude_type := S "mb",
                magnitude_value := Py.num { neg := false, ip := 2, fp := [4] },
                lower_uncertainty := Py.none, upper_uncertainty := Py.none,
                is_calculated := false }],
             [{ public_id := S "M1", origin_id := S "O1", magnitude_type := S "mb",
                magnitude_value := Py.num { neg := false, ip := 2, fp := [4] },
                lower_uncertainty := Py.none, upper_uncertainty := Py.none,
                is_calculated := false }]) := by
  refine ⟨associate_magnitudes_characterization mags origins, ?_, by decide⟩
  intro m o hm ho hid hempty
  constructor
  · rw [associate_magnitudes_characterization]
    have := List.mem_map_of_mem
      (f := fun o2 : Origin =>
        { o2 with magnitudes :=
            o2.magnitudes
              ++ mags.filter (fun m2 : Magnitude => m2.get_origin_id == o2.get_public_id) }) ho
    simpa [hempty] using this
  · exact List.mem_filter.mpr ⟨hm, py_beq_iff.mpr hid⟩

/-- Magnitude and origin for the C9 witness. -/
def c9Mag : Magnitude := { public_id := S "M7", origin_id := S "O7" }

def c9Origin : Origin := { public_id := S "O7" }

/-- Witness for claim C9 at a concrete magnitude and origin. -/
theorem claim_C9_witness :
    { c9Origin with magnitudes := [c9Mag] } ∈ associate_magnitudes [c9Mag] [c9Origin]
    ∧ c9Mag ∈ [c9Mag] := by
  have h := (claim_C9_theorem [c9Mag] [c9Origin]).2.1 c9Mag c9Origin
    (by decide) (by decide) (by decide) (by decide)
  constructor
  · have h1 := h.1
    simpa using h1
  · exact List.mem_singleton.mpr rfl

theorem pyFloat_ok_num {v w : Py} (h : pyFloat v = .ok w) : ∃ d : Dec, w = Py.num d := by
  cases v <;> simp [pyFloat] at h
  case num d => exact ⟨d, h.symm⟩
  case str s =>
      cases hp : parseFloat s with
      | none => rw [hp] at h; cases h
      | some d => rw [hp] at h; exact ⟨d, by simpa using h.symm⟩

theorem pyFloatCoerce_ok_of_pyFloat_ok {v : Py} (h : ∃ w, pyFloat v = .ok w) :
    ∃ w, pyFloatCoerce v = .ok w := by
  unfold pyFloatCoerce
  cases hc : v.truthy && !v.isFloat
  · exact ⟨v, by simp [hc]⟩
  · obtain ⟨w, hw⟩ := h
    exact ⟨w, by simp [hc, hw]⟩

theorem set_distance_fresh {o o2 : Origin} {v : Py}
    (ho : o.sst_parameters = Option.none)
    (h : Origin.set_distance o v = .ok o2) :
    ∃ sst : SingleStationParameters,
      o2 = { o with distance := v, sst_parameters := some sst }
      ∧ (sst.sst_distance = Py.none ∨ ∃ dd : Dec, sst.sst_distance = Py.num dd)
      ∧ (v = Py.none ∨ ∃ w : Py, pyFloat v = .ok w) := by
  unfold Origin.set_distance at h
  simp only [ho] at h
  cases v with
  | none =>
      simp only [SingleStationParameters.set_sst_distance, Origin.set_sst_parameters,
        pym_bind_ok, pym_pure_ok] at h
      obtain ⟨sst, hsst, rfl⟩ := h
      refine ⟨sst, rfl, ?_, Or.inl rfl⟩
      cases hsst
      exact Or.inl rfl
  | str s =>
      simp only [SingleStationParameters.set_sst_distance, Origin.set_sst_parameters,
        pym_bind_ok, pym_pure_ok] at h
      obtain ⟨sst, hsst, rfl⟩ := h
      obtain ⟨w, hw, rfl⟩ := hsst
      obtain ⟨dd, rfl⟩ := pyFloat_ok_num hw
      exact ⟨_, rfl, Or.inr ⟨dd, rfl⟩, Or.inr ⟨Py.num dd, hw⟩⟩
  | num d =>
      simp only [SingleStationParameters.set_sst_distance, Origin.set_sst_parameters,
        pym_bind_ok, pym_pure_ok] at h
      obtain ⟨sst, hsst, rfl⟩ := h
      obtain ⟨w, hw, rfl⟩ := hsst
      obtain ⟨dd, rfl⟩ := pyFloat_ok_num hw
      exact ⟨_, rfl, Or.inr ⟨dd, rfl⟩, Or.inr ⟨Py.num dd, hw⟩⟩
  | utc s =>
      simp [SingleStationParameters.set_sst_distance, pyFloat, pym_bind_ok, pym_pure_ok,
        Bind.bind, Except.bind] at h
  | list l =>
      simp [SingleStationParameters.set_sst_distance, pyFloat, pym_bind_ok, pym_pure_ok,
        Bind.bind, Except.bind] at h
  | dict d =>
      simp [SingleStationParameters.set_sst_distance, pyFloat, pym_bind_ok, pym_pure_ok,
        Bind.bind, Except.bind] at h
  | nparr l =>
      simp [SingleStationParameters.set_sst_distance, pyFloat, pym_bind_ok, pym_pure_ok,
        Bind.bind, Except.bind] at h
  | nparr0 x =>
      simp [SingleStationParameters.set_sst_distance, pyFloat, pym_bind_ok, pym_pure_ok,
        Bind.bind, Except.bind] at h

theorem pyFloatCoerce_num (d : Dec) : pyFloatCoerce (Py.num d) = Except.ok (Py.num d) := by
  simp [pyFloatCoerce, Py.isFloat]

theorem get_distance_ok {o : Origin} {sst : SingleStationParameters} {w1 w2 : Py}
    (hsst : o.sst_parameters = some sst)
    (h1 : pyFloatCoerce o.distance = .ok w1)
    (h2 : pyFloatCoerce sst.sst_distance = .ok w2) :
    Origin.get_distance o
      = .ok ({ o with
                 distance := w1
                 sst_parameters := some { sst with sst_distance := w2 } },
             if w2.truthy then w2 else w1) := by
  simp [Origin.get_distance, SingleStationParameters.get_sst_distance, hsst, h1, h2,
    pym_bind_ok, pym_pure_ok, Bind.bind, Except.bind, Pure.pure, Except.pure]

/-- Claim C10 (confirmed): every Origin produced by the origin builder
carries a non-null SingleStationParameters record (the distance setter,
always invoked by the builder, creates a fresh record when none is
attached), the distance getter — which dereferences that record
unconditionally — succeeds on such an origin, and attaching a
single-station record later keeps the field non-null. -/
theorem claim_C10_theorem (n : Py) (o : Origin) (h : _parse_origin n = .ok o) :
    o.sst_parameters.isSome = true
    ∧ (∃ r : Origin × Py, Origin.get_distance o = .ok r)
    ∧ (∀ p : SingleStationParameters,
        ((o.set_sst_parameters p).sst_parameters).isSome = true) := by
  cases n with
  | dict dd =>
      simp only [_parse_origin, Py.isDict, if_true, pym_bind_ok, pym_pure_ok] at h
      obtain ⟨pid, -, h⟩ := h
      obtain ⟨tnode, -, h⟩ := h
      obtain ⟨tval, -, h⟩ := h
      obtain ⟨otime, -, h⟩ := h
      obtain ⟨latn, -, h⟩ := h
      obtain ⟨lat, -, h⟩ := h
      obtain ⟨lonn, -, h⟩ := h
      obtain ⟨lon, -, h⟩ := h
      obtain ⟨depth, -, h⟩ := h
      obtain ⟨qual, -, h⟩ := h
      obtain ⟨mdist, -, h⟩ := h
      obtain ⟨mbaz, -, h⟩ := h
      obtain ⟨snr, -, h⟩ := h
      obtain ⟨o2, hsd, h⟩ := h
      obtain ⟨q, -, h⟩ := h
      obtain rfl := h
      obtain ⟨sst, rfl, hsstd, hv⟩ := set_distance_fresh rfl hsd
      refine ⟨rfl, ?_, fun p => rfl⟩
      have hw1 : ∃ w1 : Py, pyFloatCoerce mdist = .ok w1 := by
        rcases hv with rfl | hv
        · exact ⟨Py.none, pyFloatCoerce_none⟩
        · exact pyFloatCoerce_ok_of_pyFloat_ok hv
      have hw2 : ∃ w2 : Py, pyFloatCoerce sst.sst_distance = .ok w2 := by
        rcases hsstd with hn | ⟨dd2, hn⟩
        · rw [hn]; exact ⟨Py.none, pyFloatCoerce_none⟩
        · rw [hn]; exact ⟨Py.num dd2, pyFloatCoerce_num dd2⟩
      obtain ⟨w1, hw1⟩ := hw1
      obtain ⟨w2, hw2⟩ := hw2
      exact ⟨_, get_distance_ok rfl hw1 hw2⟩
  | none => simp [_parse_origin, Py.isDict] at h
  | str s => simp [_parse_origin, Py.isDict] at h
  | num d => simp [_parse_origin, Py.isDict] at h
  | utc s => simp [_parse_origin, Py.isDict] at h
  | list l => simp [_parse_origin, Py.isDict] at h
  | nparr l => simp [_parse_origin, Py.isDict] at h
  | nparr0 x => simp [_parse_origin, Py.isDict] at h

/-- Origin node (no depth, no distance, no back-azimuth, no quality)
and the origin the builder produces from it, used by the C10 witness. -/
def c10OriginNode : Py :=
  D [("@publicID", S "O1"),
     ("time", D [("value", S "2019-01-01T00:01:00Z")]),
     ("latitude", D [("value", S "10.0")]),
     ("longitude", D [("value", S "20.0")])]

def c10Origin : Origin :=
  { public_id := S "O1", origin_time := Py.utc "2019-01-01T00:01:00Z",
    latitude := S "10.0", longitude := S "20.0", depth := Py.num (decNat 50000),
    distance := Py.none, baz := Py.none, quality := Py.none, snr := Py.none,
    sst_parameters := some {}, magnitudes := [], arrivals := [], source := Py.none }

/-- Witness for claim C10 at a concrete origin node. -/
theorem claim_C10_witness :
    c10Origin.sst_parameters.isSome = true
    ∧ (∃ r : Origin × Py, Origin.get_distance c10Origin = .ok r) := by
  have h := claim_C10_theorem c10OriginNode c10Origin (by decide)
  exact ⟨h.1, h.2.1⟩

/-- Claim C3 (corrected): the counterexample.  In the ingested main
document the single-station record for origin O1 carries a distance
estimate 30.5 and a back-azimuth estimate 42.0, and the origin had no
prior distance or back-azimuth; after linking the origin's own distance
and back-azimuth fields are still null (nothing is propagated onto
them), and the back-azimuth getter returns null rather than the SST
back-azimuth — only the distance getter returns the SST value. -/
theorem claim_C3_counterexample :
    (read_catalog docMain (S "f")).map
        (fun c =>
          (((c.events.headD {}).origins.headD {}).baz,
           ((c.events.headD {}).origins.headD {}).distance,
           (((c.events.headD {}).origins.headD {}).sst_parameters.getD {}).sst_baz,
           (((c.events.headD {}).origins.headD {}).sst_parameters.getD {}).sst_distance))
      = .ok (Py.none, Py.none, Py.num (decNat 42),
             Py.num { neg := false, ip := 30, fp := [5] })
    ∧ ((read_catalog docMain (S "f") >>= fun c =>
          Origin.get_baz ((c.events.headD {}).origins.headD {})).map (fun r => r.2))
      = .ok Py.none
    ∧ ((read_catalog docMain (S "f") >>= fun c =>
          Origin.get_distance ((c.events.headD {}).origins.headD {})).map (fun r => r.2))
      = .ok (Py.num { neg := false, ip := 30, fp := [5] })
    ∧ Py.none ≠ Py.num (decNat 42) :=
  ⟨by decide, by decide, by decide, by decide⟩

/-- Claim C3 (corrected, amended): for every single-station-origin
record, linking attaches the built SingleStationParameters value to
each origin whose public id equals the record's origin reference, and
leaves the origin's own distance and back-azimuth fields untouched — no
point estimate is propagated onto them, whether or not they were null;
afterwards the distance getter returns the SST distance whenever that
is a non-zero float (in particular in the no-prior-value case), while
the back-azimuth getter returns only the origin's own field and never
consults the SST record. -/
theorem claim_C3_theorem (sst : Py) (o o2 : Origin) (ref : Py)
    (href : sst.getItem "sst:bedOriginReference" = .ok ref)
    (h : apply_sst_record sst o = .ok o2) :
    (o2.distance = o.distance ∧ o2.baz = o.baz)
    ∧ (ref = o.public_id →
        ∃ sp : SingleStationParameters,
          build_sst_params sst = .ok sp ∧ o2 = o.set_sst_parameters sp)
    ∧ (∀ o3 : Origin, Origin.get_baz o3
        = (pyFloatCoerce o3.baz).map (fun b => ({ o3 with baz := b }, b)))
    ∧ (∀ (o3 : Origin) (sp : SingleStationParameters) (d2 : Dec),
        o3.sst_parameters = some sp → sp.sst_distance = Py.num d2 → d2.isZero = false →
        o3.distance = Py.none →
        (Origin.get_distance o3).map (fun r => r.2) = .ok (Py.num d2)) := by
  have hbaz : ∀ o3 : Origin, Origin.get_baz o3
      = (pyFloatCoerce o3.baz).map (fun b => ({ o3 with baz := b }, b)) := by
    intro o3
    cases hb : pyFloatCoerce o3.baz with
    | ok b =>
        simp [Origin.get_baz, hb, pym_bind_ok, pym_pure_ok, Bind.bind, Except.bind,
          Pure.pure, Except.pure, Except.map, Functor.map]
    | error e =>
        simp [Origin.get_baz, hb, Bind.bind, Except.bind, Except.map, Functor.map]
  have hdist : ∀ (o3 : Origin) (sp : SingleStationParameters) (d2 : Dec),
      o3.sst_parameters = some sp → sp.sst_distance = Py.num d2 → d2.isZero = false →
      o3.distance = Py.none →
      (Origin.get_distance o3).map (fun r => r.2) = .ok (Py.num d2) := by
    intro o3 sp d2 hsp hd hz hdn
    have h1 : pyFloatCoerce o3.distance = .ok Py.none := by
      rw [hdn]; exact pyFloatCoerce_none
    have h2 : pyFloatCoerce sp.sst_distance = .ok (Py.num d2) := by
      rw [hd]; exact pyFloatCoerce_num d2
    have ht : (Py.num d2).truthy = true := by simp [Py.truthy, hz]
    rw [get_distance_ok hsp h1 h2]
    simp [Except.map, Functor.map, ht]
  simp only [apply_sst_record, pym_bind_ok, pym_pure_ok] at h
  obtain ⟨ref2, href2, h⟩ := h
  rw [href2] at href
  injection href with hrefeq
  subst hrefeq
  cases hc : (ref2 == o.get_public_id) with
  | true =>
      rw [hc] at h
      simp only [if_true, pym_bind_ok, pym_pure_ok] at h
      obtain ⟨sp, hsp, rfl⟩ := h
      exact ⟨⟨rfl, rfl⟩, fun _ => ⟨sp, hsp, rfl⟩, hbaz, hdist⟩
  | false =>
      rw [hc] at h
      simp only [Bool.false_eq_true, if_false, pym_pure_ok] at h
      subst h
      refine ⟨⟨rfl, rfl⟩, fun heq => ?_, hbaz, hdist⟩
      have hc2 : (ref2 == o.public_id) = false := hc
      rw [py_beq_iff.mpr heq] at hc2
      cases hc2

/-- Single-station record, bare origin and attachment result for the C3
witness. -/
def c3SstRecord : Py :=
  D [("@publicID", S "SSTO1"), ("sst:bedOriginReference", S "O1"),
     ("sst:distance", D [("sst:distance", D [("sst:value", S "30.5")])]),
     ("sst:azimuth", D [("sst:azimuth", D [("sst:value", S "42.0")])])]

def c3Origin : Origin := { public_id := S "O1", sst_parameters := some {} }

def c3Sp : SingleStationParameters :=
  { public_id := S "SSTO1",
    sst_distance := Py.num { neg := false, ip := 30, fp := [5] },
    sst_baz := Py.num (decNat 42) }

def c3Attached : Origin := { public_id := S "O1", sst_parameters := some c3Sp }

/-- Witness for claim C3 at a concrete single-station record. -/
theorem claim_C3_witness :
    c3Attached.distance = c3Origin.distance
    ∧ c3Attached.baz = c3Origin.baz
    ∧ (Origin.get_distance c3Attached).map (fun r => r.2)
        = .ok (Py.num { neg := false, ip := 30, fp := [5] })
    ∧ Origin.get_baz c3Attached
        = (pyFloatCoerce c3Attached.baz).map (fun b => ({ c3Attached with baz := b }, b)) := by
  have h := claim_C3_theorem c3SstRecord c3Origin c3Attached (S "O1") (by decide) (by decide)
  exact ⟨h.1.1, h.1.2,
    h.2.2.2 c3Attached c3Sp { neg := false, ip := 30, fp := [5] }
      (by decide) (by decide) (by decide) (by decide),
    h.2.2.1 c3Attached⟩

/-- Witness for claim C2 at a concrete bare mapping node. -/
theorem claim_C2_witness :
    ensure_list (Py.dict (pyD [("a", S "b")])) = [Py.dict (pyD [("a", S "b")])] :=
  claim_C2_theorem.2.2.1 (pyD [("a", S "b")])

/-- Witness for claim C7 at a concrete quality code string. -/
theorem claim_C7_witness :
    _parse_quality (Py.str "smi:insight/MarsLocationQualityType#B") = .ok (S "B") := by
  rw [(claim_C7_translators_first_substring_match "smi:insight/MarsLocationQualityType#B").1.1]
  decide

end InsightCatalog
